import Mathlib

/-!
Shallow embedding of the scroll-cursor pagination module (`scroll.go`) of the
`elastic` package, together with theorems checking the natural-language
specification against it.

The embedded functions mirror the Go source:
- `ScrollService` with its builder setters,
- `GetFirstPage` / `GetNextPage` / `Do`, split into their pure request-building
  parts (path, query parameters, body) and a result-interpretation part that is
  parametrised by an oracle `exec : Request → Response` standing for the
  out-of-scope HTTP transport, status check and JSON decode (treated as black
  boxes by the specification).  Each operation also returns the list of
  requests it issued, so that "no network request is made" is expressible.

Types and helpers that the source file references but that are not part of it
(`SearchResult`, `EOS`, `ErrNoScrollId`, `cleanPathString`, `defaultKeepAlive`,
`NewMatchAllQuery`) are modelled from the spec; their doc comments say so.
The `debug` field and its log-dumping branches, and the `client` field, are
omitted: they do not affect any request or result.  `client.NewRequest` is
modelled as total (it can only fail on a malformed URL, which the builder
never produces).
-/

namespace Elastic

/-- JSON-compatible values, used for the serialized query predicate and the
request body (the wire format is out of scope; only the value shape matters). -/
inductive Json where
  | null
  | boolVal (b : Bool)
  | num (n : Int)
  | str (s : String)
  | arr (elems : List Json)
  | obj (fields : List (String × Json))

/-- A query predicate, as the Go `Query` interface: an opaque object exposing
its serialized source. -/
structure Query where
  source : Json

/-- Modelled from the spec: `NewMatchAllQuery` is not under `src/`; the spec
says the query "defaults to match everything" and its end-to-end scenario
serializes the match-all predicate as an object with a single `match_all` key
holding an empty object. -/
def NewMatchAllQuery : Query :=
  ⟨Json.obj [("match_all", Json.obj [])]⟩

/-- Modelled from the spec: the `SearchHit` record type is not under `src/`;
the spec only requires an ordered sequence of matched-document records, so a
hit is an opaque JSON document. -/
structure SearchHit where
  source : Json

/-- Modelled from the spec: the hits container of the response envelope (not
under `src/`): a total-count field and an ordered sequence of hit records. -/
structure SearchHits where
  totalHits : Int
  hits : List SearchHit

/-- Modelled from the spec: the decoded result envelope (not under `src/`): a
cursor-handle field and an optional hits container (`Hits` is a pointer in the
source, hence `Option`).  The envelope itself is allocated by the caller of
the decoder (`new(SearchResult)` in the source), so it is never absent. -/
structure SearchResult where
  scrollId : String
  hits : Option SearchHits

/-- Modelled from the spec: the error taxonomy.  `ErrNoScrollId` (the
missing-cursor precondition error) and `EOS` (the distinguished end-of-stream
sentinel) are not under `src/`; transport, response-status and decode failures
are the three propagated-unchanged collaborator failures. -/
inductive ScrollError where
  | errNoScrollId
  | transportFailed
  | responseFailed (status : Nat)
  | decodeFailed
  | eos
deriving Repr, DecidableEq

/-- Query parameters, as Go's `url.Values` restricted to what the source uses:
`Set` (replace) and membership.  Encoding order is irrelevant to the claims. -/
def Params := List (String × String)

/-- `url.Values.Set`: replace any existing binding of the key. -/
def Params.set (p : Params) (k v : String) : Params :=
  (List.filter (fun kv => kv.1 != k) p) ++ [(k, v)]

/-- Look up the value bound to a key (the source binds each key at most once). -/
def Params.get (p : Params) (k : String) : Option String :=
  (List.find? (fun kv => kv.1 == k) p).map (fun kv => kv.2)

/-- The body of a request: a JSON object (first page) or a raw string
(continuation page, which sends the bare cursor handle). -/
inductive RequestBody where
  | jsonBody (fields : List (String × Json))
  | strBody (s : String)

/-- A constructed HTTP-style request: method, path, query parameters, body. -/
structure Request where
  method : String
  path : String
  params : Params
  body : RequestBody

/-- What the black-box transport/status-check/decode pipeline can yield for an
issued request: a transport failure, a non-success status turned into a
structured error by `checkResponse`, a JSON decode failure, or a decoded
envelope. -/
inductive Response where
  | transportFailure
  | statusFailure (status : Nat)
  | decodeFailure
  | ok (result : SearchResult)

/-- The `ScrollService` builder state (`client` and `debug` omitted, see the
file comment). -/
structure ScrollService where
  indices : List String
  types : List String
  keepAlive : String
  query : Option Query
  size : Option Int
  pretty : Bool
  scrollId : String

/-- `NewScrollService`: fresh builder; the query defaults to match-all. -/
def NewScrollService : ScrollService :=
  { indices := [], types := [], keepAlive := "", query := some NewMatchAllQuery,
    size := none, pretty := false, scrollId := "" }

/-- Setter `Index`: append one index name. -/
def ScrollService.Index (s : ScrollService) (index : String) : ScrollService :=
  { s with indices := s.indices ++ [index] }

/-- Setter `Indices`: append several index names. -/
def ScrollService.Indices (s : ScrollService) (indices : List String) : ScrollService :=
  { s with indices := s.indices ++ indices }

/-- Setter `Type`: append one type name (`Type` is reserved in Lean). -/
def ScrollService.Typ (s : ScrollService) (typ : String) : ScrollService :=
  { s with types := s.types ++ [typ] }

/-- Setter `Types`: append several type names. -/
def ScrollService.Types (s : ScrollService) (types : List String) : ScrollService :=
  { s with types := s.types ++ types }

/-- Setter `Scroll` (alias of `KeepAlive`). -/
def ScrollService.Scroll (s : ScrollService) (keepAlive : String) : ScrollService :=
  { s with keepAlive := keepAlive }

/-- Setter `KeepAlive`. -/
def ScrollService.KeepAlive (s : ScrollService) (keepAlive : String) : ScrollService :=
  { s with keepAlive := keepAlive }

/-- Setter `Query`. -/
def ScrollService.Query (s : ScrollService) (query : Query) : ScrollService :=
  { s with query := some query }

/-- Setter `Pretty`. -/
def ScrollService.Pretty (s : ScrollService) (pretty : Bool) : ScrollService :=
  { s with pretty := pretty }

/-- Setter `Size` (stores a pointer in the source, hence `some`). -/
def ScrollService.Size (s : ScrollService) (size : Int) : ScrollService :=
  { s with size := some size }

/-- Setter `ScrollId`. -/
def ScrollService.ScrollId (s : ScrollService) (scrollId : String) : ScrollService :=
  { s with scrollId := scrollId }

/-- Modelled from the spec: `cleanPathString`, the name-normalization function
for path segments, is not under `src/`; the spec requires that each name is
escaped/normalized before insertion into the path so that no raw unescaped
special characters appear.  A character is clean when alphanumeric, dash,
underscore or dot. -/
def isCleanPathChar (c : Char) : Bool :=
  c.isAlphanum || c == '-' || c == '_' || c == '.'

/-- Modelled from the spec: normalization drops every non-clean character. -/
def cleanPathString (s : String) : String :=
  ⟨List.filter isCleanPathChar s.data⟩

/-- Modelled from the spec: the documented default keep-alive constant
`defaultKeepAlive` is not under `src/`; the claims compare against the
constant, not its particular value. -/
def defaultKeepAlive : String := "5m"

/-- The URL path built by `GetFirstPage` (lines 119-141 of the source):
start from "/", append the comma-joined cleaned indices when non-empty,
append "/" and the comma-joined cleaned types when non-empty, then append
"/_search". -/
def GetFirstPagePath (s : ScrollService) : String :=
  let urls := "/"
  let indexPart := List.map cleanPathString s.indices
  let urls := if indexPart.length > 0 then urls ++ String.intercalate "," indexPart else urls
  let typesPart := List.map cleanPathString s.types
  let urls := if typesPart.length > 0 then urls ++ "/" ++ String.intercalate "," typesPart else urls
  urls ++ "/_search"

/-- The query parameters built by `GetFirstPage` (lines 143-156): always
`search_type=scan`, `pretty=true` when enabled, `scroll` from `keepAlive` or
the default constant, and `size` when set and positive. -/
def GetFirstPageParams (s : ScrollService) : Params :=
  let params : Params := []
  let params := Params.set params "search_type" "scan"
  let params := if s.pretty then Params.set params "pretty" "true" else params
  let params := if s.keepAlive ≠ "" then Params.set params "scroll" s.keepAlive
                else Params.set params "scroll" defaultKeepAlive
  match s.size with
  | some n => if 0 < n then Params.set params "size" (toString n) else params
  | none => params

/-- The JSON body built by `GetFirstPage` (lines 167-175): a map holding the
serialized query under the `query` key when a query is configured. -/
def firstPageBody (s : ScrollService) : List (String × Json) :=
  match s.query with
  | some q => [("query", q.source)]
  | none => []

/-- The full first-page request. -/
def GetFirstPageRequest (s : ScrollService) : Request :=
  { method := "POST", path := GetFirstPagePath s, params := GetFirstPageParams s,
    body := RequestBody.jsonBody (firstPageBody s) }

/-- `GetFirstPage` (lines 118-203): build and issue the first-page request,
propagate transport/status/decode failures unchanged, and return the decoded
envelope as-is.  The first component lists the issued requests. -/
def GetFirstPage (s : ScrollService) (exec : Request → Response) :
    List Request × Except ScrollError SearchResult :=
  let req := GetFirstPageRequest s
  ([req],
    match exec req with
    | Response.transportFailure => Except.error ScrollError.transportFailed
    | Response.statusFailure st => Except.error (ScrollError.responseFailed st)
    | Response.decodeFailure => Except.error ScrollError.decodeFailed
    | Response.ok sr => Except.ok sr)

/-- The query parameters built by `GetNextPage` (lines 213-222): `pretty=true`
when enabled and `scroll` from `keepAlive` or the default constant. -/
def GetNextPageParams (s : ScrollService) : Params :=
  let params : Params := []
  let params := if s.pretty then Params.set params "pretty" "true" else params
  if s.keepAlive ≠ "" then Params.set params "scroll" s.keepAlive
  else Params.set params "scroll" defaultKeepAlive

/-- The full continuation request: fixed path `/_search/scroll`, raw cursor
handle as body (lines 210-232). -/
def GetNextPageRequest (s : ScrollService) : Request :=
  { method := "POST", path := "/_search/scroll", params := GetNextPageParams s,
    body := RequestBody.strBody s.scrollId }

/-- `GetNextPage` (lines 205-265): fail fast with `ErrNoScrollId` when the
cursor handle is empty (no request is built or issued); otherwise issue the
continuation request, propagate failures unchanged, and on a decoded envelope
return `EOS` when the hits container is absent, the hits sequence is empty, or
the total-hits counter is zero (the decoded envelope itself, allocated with
`new`, is never absent), else the envelope unchanged. -/
def GetNextPage (s : ScrollService) (exec : Request → Response) :
    List Request × Except ScrollError SearchResult :=
  if s.scrollId = "" then ([], Except.error ScrollError.errNoScrollId)
  else
    let req := GetNextPageRequest s
    ([req],
      match exec req with
      | Response.transportFailure => Except.error ScrollError.transportFailed
      | Response.statusFailure st => Except.error (ScrollError.responseFailed st)
      | Response.decodeFailure => Except.error ScrollError.decodeFailed
      | Response.ok sr =>
        match sr.hits with
        | none => Except.error ScrollError.eos
        | some h =>
          if h.hits.length = 0 ∨ h.totalHits = 0 then Except.error ScrollError.eos
          else Except.ok sr)

/-- `Do` (lines 111-116): dispatch on whether a cursor handle is held. -/
def ScrollService.Do (s : ScrollService) (exec : Request → Response) :
    List Request × Except ScrollError SearchResult :=
  if s.scrollId = "" then GetFirstPage s exec else GetNextPage s exec

/-- Spec-side end-of-stream condition, following the spec's words: "if the
envelope is absent, or its hits container is absent, or the hits sequence is
empty, or the total-hits counter is zero".  The envelope-absent case is not
representable here: the source allocates the envelope with `new`, so only the
remaining three disjuncts can occur. -/
def specEndOfStream (sr : SearchResult) : Prop :=
  sr.hits = none ∨ ∃ h, sr.hits = some h ∧ (h.hits = [] ∨ h.totalHits = 0)

/-- A service holding a cursor handle, as after a first fetch. -/
def sNext : ScrollService := { NewScrollService with scrollId := "abc" }

/-- A service targeting one collection and one category. -/
def sBoth : ScrollService := { NewScrollService with indices := ["logs"], types := ["doc"] }

/-- A service with an explicit keep-alive duration. -/
def sKeep : ScrollService := { NewScrollService with keepAlive := "1m" }

/-- A service with a positive page size. -/
def sSize : ScrollService := { NewScrollService with size := some 50 }

/-- A service with a zero page size. -/
def sSizeZero : ScrollService := { NewScrollService with size := some 0 }

/-- A decoded envelope with an empty page. -/
def srEmpty : SearchResult := { scrollId := "abc", hits := some { totalHits := 0, hits := [] } }

/-- A decoded envelope with one hit and a consistent total. -/
def srOne : SearchResult :=
  { scrollId := "abc", hits := some { totalHits := 3, hits := [{ source := Json.null }] } }

/-- A decoded envelope with one hit but a zero total-hits counter. -/
def srInconsistent : SearchResult :=
  { scrollId := "abc", hits := some { totalHits := 0, hits := [{ source := Json.null }] } }

/-- A transport pipeline that always fails to decode. -/
def execDecodeFailure : Request → Response := fun _ => Response.decodeFailure

/-- A transport pipeline that always decodes `srEmpty`. -/
def execOkEmpty : Request → Response := fun _ => Response.ok srEmpty

/-- A transport pipeline that always decodes `srOne`. -/
def execOkOne : Request → Response := fun _ => Response.ok srOne

/-- A transport pipeline that always decodes `srInconsistent`. -/
def execOkInconsistent : Request → Response := fun _ => Response.ok srInconsistent

/-- C1: the claim states that a configuration with empty target collections
and categories yields the path "/_search" exactly.  The code starts from "/"
and, with both segments omitted, appends the literal "/_search" to it, so the
path is in fact "//_search" (a doubled separator): the claim is false at the
freshly constructed service. -/
theorem C1_counterexample :
    NewScrollService.indices = [] ∧ NewScrollService.types = [] ∧
    GetFirstPagePath NewScrollService ≠ "/_search" ∧
    GetFirstPagePath NewScrollService = "//_search" := by
  refine ⟨rfl, rfl, ?_, rfl⟩
  decide

/-- C1 (amended): for every configuration with empty target collections and
empty target categories, GetFirstPage builds the path "//_search" — the fixed
"/_search" suffix appended to the initial "/" with no segments in between, so
the leading separator is doubled. -/
theorem C1_empty_path (s : ScrollService) (hi : s.indices = []) (ht : s.types = []) :
    GetFirstPagePath s = "//_search" := by
  rcases s with ⟨i, t, k, q, z, p, sid⟩
  cases hi
  cases ht
  rfl

/-- Witness for C1 (amended) at the freshly constructed service. -/
theorem C1_empty_path_witness :
    NewScrollService.indices = [] ∧ NewScrollService.types = [] ∧
    GetFirstPagePath NewScrollService = "//_search" :=
  ⟨rfl, rfl, C1_empty_path NewScrollService rfl rfl⟩

/-- C3: whenever the cursor handle is empty, GetNextPage fails immediately
with the missing-cursor error, for every transport pipeline, and the list of
issued requests is empty — no request is constructed or issued. -/
theorem C3_no_cursor_fails_fast (s : ScrollService) (exec : Request → Response)
    (hs : s.scrollId = "") :
    GetNextPage s exec = ([], Except.error ScrollError.errNoScrollId) := by
  simp [GetNextPage, hs]

/-- Witness for C3 at the freshly constructed service. -/
theorem C3_no_cursor_fails_fast_witness :
    NewScrollService.scrollId = "" ∧
    GetNextPage NewScrollService execDecodeFailure =
      ([], Except.error ScrollError.errNoScrollId) :=
  ⟨rfl, C3_no_cursor_fails_fast NewScrollService execDecodeFailure rfl⟩

/-- C8: `Do` delegates to GetFirstPage exactly when the held cursor handle is
empty and to GetNextPage otherwise, returning the delegate's result (both
components, issued requests and outcome) unchanged. -/
theorem C8_do_dispatch (s : ScrollService) (exec : Request → Response) :
    (s.scrollId = "" → ScrollService.Do s exec = GetFirstPage s exec) ∧
    (s.scrollId ≠ "" → ScrollService.Do s exec = GetNextPage s exec) := by
  constructor
  · intro h
    simp [ScrollService.Do, h]
  · intro h
    simp [ScrollService.Do, h]

/-- Witness for C8 at a fresh service (empty handle) and at one holding a
handle. -/
theorem C8_do_dispatch_witness :
    NewScrollService.scrollId = "" ∧ sNext.scrollId ≠ "" ∧
    ScrollService.Do NewScrollService execDecodeFailure =
      GetFirstPage NewScrollService execDecodeFailure ∧
    ScrollService.Do sNext execDecodeFailure = GetNextPage sNext execDecodeFailure :=
  ⟨rfl, by decide,
    (C8_do_dispatch NewScrollService execDecodeFailure).1 rfl,
    (C8_do_dispatch sNext execDecodeFailure).2 (by decide)⟩

/-- C5: the first-page body holds the serialized predicate under the `query`
key, the key is omitted when no predicate is configured, and a freshly
constructed service defaults to the match-everything query. -/
theorem C5_first_page_body (s : ScrollService) :
    (∀ q, s.query = some q → firstPageBody s = [("query", q.source)]) ∧
    (s.query = none → firstPageBody s = []) ∧
    NewScrollService.query = some NewMatchAllQuery := by
  refine ⟨?_, ?_, rfl⟩
  · intro q hq
    simp [firstPageBody, hq]
  · intro hq
    simp [firstPageBody, hq]

/-- Witness for C5 at the freshly constructed service. -/
theorem C5_first_page_body_witness :
    NewScrollService.query = some NewMatchAllQuery ∧
    firstPageBody NewScrollService = [("query", NewMatchAllQuery.source)] :=
  ⟨rfl, (C5_first_page_body NewScrollService).1 NewMatchAllQuery rfl⟩

/-- C10: GetFirstPage never returns the end-of-stream sentinel: every decoded
envelope — even one with an absent hits container, empty hits or zero total —
is returned as a data result; emptiness-based exhaustion detection happens
only in GetNextPage. -/
theorem C10_first_page_no_eos (s : ScrollService) (exec : Request → Response) :
    (GetFirstPage s exec).2 ≠ Except.error ScrollError.eos ∧
    (∀ sr, exec (GetFirstPageRequest s) = Response.ok sr →
      (GetFirstPage s exec).2 = Except.ok sr) := by
  constructor
  · rcases hx : exec (GetFirstPageRequest s) with _ | st | _ | sr <;>
      simp [GetFirstPage, hx]
  · intro sr hx
    simp [GetFirstPage, hx]

/-- Witness for C10: a decoded first-page envelope with zero hits is returned
as data, not as end-of-stream. -/
theorem C10_first_page_no_eos_witness :
    execOkEmpty (GetFirstPageRequest NewScrollService) = Response.ok srEmpty ∧
    (GetFirstPage NewScrollService execOkEmpty).2 = Except.ok srEmpty ∧
    (GetFirstPage NewScrollService execOkEmpty).2 ≠ Except.error ScrollError.eos :=
  ⟨rfl, (C10_first_page_no_eos NewScrollService execOkEmpty).2 srEmpty rfl,
    (C10_first_page_no_eos NewScrollService execOkEmpty).1⟩

/-- C2: after a successful decode with a non-empty cursor handle, GetNextPage
returns the end-of-stream sentinel exactly when the spec's emptiness condition
holds of the decoded envelope — hits container absent, hits sequence empty, or
total-hits counter zero (the envelope-absent disjunct cannot occur, see
`specEndOfStream`).  The "exactly when" direction makes this the sole
termination condition. -/
theorem getNextPage_ok_none (s : ScrollService) (exec : Request → Response)
    (hs : s.scrollId ≠ "") (sr : SearchResult)
    (hx : exec (GetNextPageRequest s) = Response.ok sr) (hh : sr.hits = none) :
    (GetNextPage s exec).2 = Except.error ScrollError.eos := by
  simp [GetNextPage, hs, hx, hh]

theorem getNextPage_ok_some (s : ScrollService) (exec : Request → Response)
    (hs : s.scrollId ≠ "") (sr : SearchResult) (h : SearchHits)
    (hx : exec (GetNextPageRequest s) = Response.ok sr) (hh : sr.hits = some h) :
    (GetNextPage s exec).2 =
      if h.hits.length = 0 ∨ h.totalHits = 0 then Except.error ScrollError.eos
      else Except.ok sr := by
  simp [GetNextPage, hs, hx, hh]

theorem C2_eos_iff (s : ScrollService) (exec : Request → Response)
    (hs : s.scrollId ≠ "") (sr : SearchResult)
    (hx : exec (GetNextPageRequest s) = Response.ok sr) :
    ((GetNextPage s exec).2 = Except.error ScrollError.eos ↔ specEndOfStream sr) := by
  rcases hh : sr.hits with _ | h
  · exact iff_of_true (getNextPage_ok_none s exec hs sr hx hh) (Or.inl hh)
  · rw [getNextPage_ok_some s exec hs sr h hx hh]
    by_cases hc : h.hits.length = 0 ∨ h.totalHits = 0
    · rw [if_pos hc]
      refine iff_of_true rfl (Or.inr ⟨h, hh, ?_⟩)
      rcases hc with hc | hc
      · exact Or.inl (List.length_eq_zero.mp hc)
      · exact Or.inr hc
    · rw [if_neg hc]
      refine iff_of_false (by simp) ?_
      rintro (habs | ⟨h', hh', hemp⟩)
      · rw [hh] at habs
        exact Option.noConfusion habs
      · rw [hh] at hh'
        injection hh' with he
        subst he
        refine hc ?_
        rcases hemp with hemp | hemp
        · exact Or.inl (by rw [hemp]; rfl)
        · exact Or.inr hemp

/-- Witness for C2: a decoded envelope with zero total hits and an empty hits
sequence makes GetNextPage return the end-of-stream sentinel. -/
theorem C2_eos_iff_witness :
    sNext.scrollId ≠ "" ∧
    execOkEmpty (GetNextPageRequest sNext) = Response.ok srEmpty ∧
    ((GetNextPage sNext execOkEmpty).2 = Except.error ScrollError.eos ↔
      specEndOfStream srEmpty) ∧
    (GetNextPage sNext execOkEmpty).2 = Except.error ScrollError.eos :=
  ⟨by decide, rfl, C2_eos_iff sNext execOkEmpty (by decide) srEmpty rfl, rfl⟩

/-- C4: the claim states that every decoded envelope with one or more hits is
returned unchanged; but the source also requires a non-zero total-hits counter
(line 260), so an envelope holding one hit together with a zero total is
turned into the end-of-stream sentinel instead. -/
theorem C4_counterexample :
    execOkInconsistent (GetNextPageRequest sNext) = Response.ok srInconsistent ∧
    (Option.map (fun h => h.hits.length) srInconsistent.hits) = some 1 ∧
    (GetNextPage sNext execOkInconsistent).2 = Except.error ScrollError.eos ∧
    (GetNextPage sNext execOkInconsistent).2 ≠ Except.ok srInconsistent := by
  have heos : (GetNextPage sNext execOkInconsistent).2 = Except.error ScrollError.eos := rfl
  refine ⟨rfl, rfl, heos, ?_⟩
  rw [heos]
  simp

/-- C4 (amended): every successfully decoded envelope with one or more hits
and a non-zero total-hits counter is returned unchanged — no filtering or
transformation of the handle, the count, or the hit records. -/
theorem C4_returns_envelope_unchanged (s : ScrollService) (exec : Request → Response)
    (hs : s.scrollId ≠ "") (sr : SearchResult) (h : SearchHits)
    (hx : exec (GetNextPageRequest s) = Response.ok sr)
    (hh : sr.hits = some h) (hne : h.hits ≠ []) (htot : h.totalHits ≠ 0) :
    (GetNextPage s exec).2 = Except.ok sr := by
  have hc : ¬ (h.hits.length = 0 ∨ h.totalHits = 0) := by
    rintro (hl | hl)
    · exact hne (List.length_eq_zero.mp hl)
    · exact htot hl
  rw [getNextPage_ok_some s exec hs sr h hx hh, if_neg hc]

/-- Witness for C4 (amended): an envelope with one hit and total 3 comes back
whole. -/
theorem C4_returns_envelope_unchanged_witness :
    sNext.scrollId ≠ "" ∧
    execOkOne (GetNextPageRequest sNext) = Response.ok srOne ∧
    (GetNextPage sNext execOkOne).2 = Except.ok srOne :=
  ⟨by decide, rfl,
    C4_returns_envelope_unchanged sNext execOkOne (by decide) srOne
      { totalHits := 3, hits := [{ source := Json.null }] } rfl rfl
      (List.cons_ne_nil _ _) (by decide)⟩

theorem scroll_param_first (s : ScrollService) :
    Params.get (GetFirstPageParams s) "scroll" =
      some (if s.keepAlive = "" then defaultKeepAlive else s.keepAlive) := by
  rcases s with ⟨i, t, k, q, z, p, sid⟩
  rcases z with _ | n
  · by_cases hk : k = "" <;> cases p <;>
      simp [GetFirstPageParams, Params.get, Params.set, hk]
  · by_cases hn : (0:Int) < n <;> by_cases hk : k = "" <;> cases p <;>
      simp [GetFirstPageParams, Params.get, Params.set, hk, hn]

theorem scroll_param_next (s : ScrollService) :
    Params.get (GetNextPageParams s) "scroll" =
      some (if s.keepAlive = "" then defaultKeepAlive else s.keepAlive) := by
  rcases s with ⟨i, t, k, q, z, p, sid⟩
  by_cases hk : k = "" <;> cases p <;>
    simp [GetNextPageParams, Params.get, Params.set, hk]

theorem size_param_first (s : ScrollService) :
    Params.get (GetFirstPageParams s) "size" =
      (match s.size with
        | some n => if 0 < n then some (toString n) else none
        | none => none) := by
  rcases s with ⟨i, t, k, q, z, p, sid⟩
  rcases z with _ | n
  · by_cases hk : k = "" <;> cases p <;>
      simp [GetFirstPageParams, Params.get, Params.set, hk]
  · by_cases hn : (0:Int) < n <;> by_cases hk : k = "" <;> cases p <;>
      simp [GetFirstPageParams, Params.get, Params.set, hk, hn]

theorem size_param_next (s : ScrollService) :
    Params.get (GetNextPageParams s) "size" = none := by
  rcases s with ⟨i, t, k, q, z, p, sid⟩
  by_cases hk : k = "" <;> cases p <;>
    simp [GetNextPageParams, Params.get, Params.set, hk]

/-- C6: in both operations, the `scroll` query parameter is the default
keep-alive constant when `keepAlive` is unset, and exactly the configured
string when set. -/
theorem C6_scroll_param (s : ScrollService) :
    (s.keepAlive = "" →
      Params.get (GetFirstPageParams s) "scroll" = some defaultKeepAlive ∧
      Params.get (GetNextPageParams s) "scroll" = some defaultKeepAlive) ∧
    (s.keepAlive ≠ "" →
      Params.get (GetFirstPageParams s) "scroll" = some s.keepAlive ∧
      Params.get (GetNextPageParams s) "scroll" = some s.keepAlive) := by
  constructor
  · intro hk
    exact ⟨by rw [scroll_param_first, if_pos hk], by rw [scroll_param_next, if_pos hk]⟩
  · intro hk
    exact ⟨by rw [scroll_param_first, if_neg hk], by rw [scroll_param_next, if_neg hk]⟩

/-- Witness for C6 at an unset keep-alive (fresh service) and at one set to
"1m". -/
theorem C6_scroll_param_witness :
    NewScrollService.keepAlive = "" ∧ sKeep.keepAlive = "1m" ∧
    Params.get (GetFirstPageParams NewScrollService) "scroll" = some defaultKeepAlive ∧
    Params.get (GetNextPageParams NewScrollService) "scroll" = some defaultKeepAlive ∧
    Params.get (GetFirstPageParams sKeep) "scroll" = some "1m" ∧
    Params.get (GetNextPageParams sKeep) "scroll" = some "1m" :=
  ⟨rfl, rfl,
    ((C6_scroll_param NewScrollService).1 rfl).1,
    ((C6_scroll_param NewScrollService).1 rfl).2,
    ((C6_scroll_param sKeep).2 (by decide)).1,
    ((C6_scroll_param sKeep).2 (by decide)).2⟩

/-- C7: the `size` parameter is present on the first-page request exactly for
a configured positive page size, with that value; absent for a non-positive or
unset size; and never present on the continuation request. -/
theorem C7_size_param (s : ScrollService) :
    (∀ n, s.size = some n → 0 < n →
      Params.get (GetFirstPageParams s) "size" = some (toString n)) ∧
    (∀ n, s.size = some n → ¬ 0 < n →
      Params.get (GetFirstPageParams s) "size" = none) ∧
    (s.size = none → Params.get (GetFirstPageParams s) "size" = none) ∧
    Params.get (GetNextPageParams s) "size" = none := by
  refine ⟨?_, ?_, ?_, size_param_next s⟩
  · intro n hz hn
    rw [size_param_first, hz]
    simp [hn]
  · intro n hz hn
    rw [size_param_first, hz]
    simp [hn]
  · intro hz
    rw [size_param_first, hz]

/-- Witness for C7 at sizes 50, 0 and unset. -/
theorem C7_size_param_witness :
    sSize.size = some 50 ∧ (0:Int) < 50 ∧
    Params.get (GetFirstPageParams sSize) "size" = some "50" ∧
    sSizeZero.size = some 0 ∧
    Params.get (GetFirstPageParams sSizeZero) "size" = none ∧
    NewScrollService.size = none ∧
    Params.get (GetFirstPageParams NewScrollService) "size" = none ∧
    Params.get (GetNextPageParams sSize) "size" = none :=
  ⟨rfl, by decide,
    (C7_size_param sSize).1 50 rfl (by decide),
    rfl,
    (C7_size_param sSizeZero).2.1 0 rfl (by decide),
    rfl,
    (C7_size_param NewScrollService).2.2.1 rfl,
    (C7_size_param sSize).2.2.2⟩

/-- C9: with non-empty target collections and categories, the first-page path
is the initial separator, the comma-joined cleaned collection names, a
separator, the comma-joined cleaned category names (each name normalized by
`cleanPathString` before joining, in insertion order), and the "/_search"
suffix; every character a cleaned name contributes is a clean path
character. -/
theorem C9_nonempty_path (s : ScrollService) (hi : s.indices ≠ []) (ht : s.types ≠ []) :
    GetFirstPagePath s =
      "/" ++ String.intercalate "," (List.map cleanPathString s.indices) ++ "/" ++
        String.intercalate "," (List.map cleanPathString s.types) ++ "/_search" ∧
    ∀ x : String, ∀ c ∈ (cleanPathString x).data, isCleanPathChar c = true := by
  constructor
  · have hi' : 0 < (List.map cleanPathString s.indices).length := by
      rw [List.length_map]
      exact List.length_pos.mpr hi
    have ht' : 0 < (List.map cleanPathString s.types).length := by
      rw [List.length_map]
      exact List.length_pos.mpr ht
    simp only [GetFirstPagePath, if_pos hi', if_pos ht']
  · intro x c hc
    exact (List.mem_filter.mp hc).2

/-- Witness for C9 at one collection "logs" and one category "doc". -/
theorem C9_nonempty_path_witness :
    sBoth.indices ≠ [] ∧ sBoth.types ≠ [] ∧
    GetFirstPagePath sBoth = "/logs/doc/_search" := by
  have h := C9_nonempty_path sBoth (by decide) (by decide)
  refine ⟨by decide, by decide, ?_⟩
  rw [h.1]
  rfl

end Elastic
